import Mathlib

/-!
# Verification of the llmcommit commit-message pipeline

A shallow embedding of the core pipeline of the `llmcommit` repository
(`src/blueprint/commit_generator.py`, `src/blueprint/cli.py`,
`src/blueprint/ai_service.py`): diff acquisition, AI-response parsing,
interactive selection, and the orchestrating CLI loop.

External effects (git subprocesses, HTTP calls, the fzf chooser process)
are modelled as explicit inputs: the git diff outputs, the backend's reply
texts, and the chooser's result are parameters of the embedded functions.

Python strings are sequences of characters; they are modelled as Lean
`String`s, and the Python string methods the code uses are embedded as
structurally recursive functions over `String.data` (the character list),
named `py*` below.  `str.strip()` is modelled with `Char.isWhitespace`
(space, tab, CR, LF); Python additionally strips `\x0b`/`\x0c` and Unicode
spaces, which do not occur in the inputs of interest.
-/

namespace Llmcommit

/-- Index of the first occurrence of the (non-empty) character sequence
`sep` in `l`, scanning left to right. -/
def findSubstring (sep : List Char) : List Char → Option Nat
  | [] => none
  | c :: cs =>
    if sep.isPrefixOf (c :: cs) then some 0
    else (findSubstring sep cs).map (· + 1)

/-- Python's `s.split(sep, 1)` for a non-empty `sep`: split at the first
occurrence of `sep` only, giving the part before it and the part after
it, or `[s]` when `sep` does not occur. -/
def pySplitOnce (s sep : String) : List String :=
  match findSubstring sep.data s.data with
  | none => [s]
  | some i => [⟨s.data.take i⟩, ⟨s.data.drop (i + sep.data.length)⟩]

/-- Splitting a character list at every occurrence of the character `c`
(Python's `s.split(c)` for a single-character separator). -/
def splitOnChar (c : Char) : List Char → List (List Char)
  | [] => [[]]
  | x :: xs =>
    if x = c then [] :: splitOnChar c xs
    else
      match splitOnChar c xs with
      | [] => [[x]]
      | p :: ps => (x :: p) :: ps

/-- Python's `response.split("\n")`. -/
def pySplitNl (s : String) : List String :=
  (splitOnChar (Char.ofNat 10) s.data).map (fun cs => ⟨cs⟩)

/-- Python's `s.strip()`: remove leading and trailing whitespace. -/
def pyStrip (s : String) : String :=
  ⟨(((s.data.dropWhile Char.isWhitespace).reverse.dropWhile Char.isWhitespace).reverse)⟩

/-- Python's `s.startswith(pre)`. -/
def pyStartsWith (s pre : String) : Bool :=
  pre.data.isPrefixOf s.data

/-- Python's `s.endswith(suf)`. -/
def pyEndsWith (s suf : String) : Bool :=
  suf.data.isSuffixOf s.data

/-- Python's `s[1:-1]`: drop the first and the last character. -/
def pySliceInner (s : String) : String :=
  ⟨(s.data.drop 1).dropLast⟩

/-- Python's `s[:n]` for `n ≥ 0`: the first `n` characters. -/
def pyTake (s : String) (n : Nat) : String :=
  ⟨s.data.take n⟩

/-- The quote-stripping step of `parse_commit_messages`
(commit_generator.py lines 122-124): Python's
`message[1:-1] if message.startswith("'") and message.endswith("'")`. -/
def stripQuotes (message : String) : String :=
  if pyStartsWith message "'" && pyEndsWith message "'" then
    pySliceInner message
  else message

/-- The per-line body of the loop in `parse_commit_messages`
(commit_generator.py lines 115-125): trim the line, accept it iff it
starts with `"1."`, `"2."` or `"3."` (Python `startswith` on a tuple of
literals), then take everything after the first `"."`
(`line.split(".", 1)[1]`), strip whitespace, and strip a surrounding
pair of single quotes.  Inside the accepted branch the line starts with
a digit followed by `"."`, so the split always yields two parts and the
index `[1]` (modelled with `getD 1 ""`) never falls back. -/
def extract_line (rawLine : String) : Option String :=
  let line := pyStrip rawLine
  if pyStartsWith line "1." || pyStartsWith line "2." || pyStartsWith line "3." then
    let message := pyStrip ((pySplitOnce line ".").getD 1 "")
    some (stripQuotes message)
  else
    none

/-- `parse_commit_messages` restricted to an already-split line list:
the accepted lines' extracted messages, in encounter order. -/
def parse_lines (lines : List String) : List String :=
  lines.filterMap extract_line

/-- `parse_commit_messages` (commit_generator.py lines 101-129): split
the response on `"\n"` and extract the accepted lines. -/
def parse_commit_messages (response : String) : List String :=
  parse_lines (pySplitNl response)

/-! ## DiffSource: `get_git_diff` (commit_generator.py lines 11-45)

The two git subprocess calls are modelled by a `GitEnv` carrying the
stdout of `git diff --cached --diff-filter=ACMTU` (`staged`) and of
`git diff --diff-filter=ACMTU` (`unstaged`).  The
`subprocess.CalledProcessError` branch (not a git repository) aborts the
process and is outside the claims considered here. -/

/-- Outputs of the two git diff queries, as seen by `get_git_diff`. -/
structure GitEnv where
  staged : String
  unstaged : String

/-- `get_git_diff` (commit_generator.py lines 11-45): take the staged
diff; if it is empty (Python `if not diff:`), fall back to the unstaged
diff; return the first `max_chars` characters (`diff[:max_chars]`). -/
def get_git_diff (env : GitEnv) (max_chars : Nat := 5000) : String :=
  let diff := env.staged
  let diff := if diff = "" then env.unstaged else diff
  pyTake diff max_chars

/-! ## ModelClient: `AIService._query_ollama` (ai_service.py lines 52-69)

The HTTP exchange is modelled by its outcome: either a successful
response carrying the parsed JSON object body, or a failure (transport
error, or a non-success status detected by `raise_for_status`, or a
non-JSON body).  Only string-valued fields matter here, so the JSON
object is a field-name/string association list. -/

/-- Parsed JSON object body of an HTTP response (string fields only). -/
structure JsonObj where
  fields : List (String × String)
deriving DecidableEq

/-- Python's `dict.get(key, default)` on a parsed JSON object. -/
def jsonGet (obj : JsonObj) (key : String) (default : String) : String :=
  match obj.fields.lookup key with
  | some v => v
  | none => default

/-- Outcome of the `requests.post` call plus `raise_for_status` and
`.json()`: a JSON object body on success, an exception otherwise. -/
inductive HttpOutcome where
  | success (body : JsonObj)
  | failure (err : String)
deriving DecidableEq

/-- `AIService._query_ollama` (ai_service.py lines 52-69): on a
successful response return `response.json().get("response", "")`; any
exception is re-raised wrapped in the Ollama error message. -/
def query_ollama : HttpOutcome → Except String String
  | .success body => .ok (jsonGet body "response" "")
  | .failure e => .error ("Error querying Ollama API: " ++ e)

/-- Parameter names accepted by `AIService.__init__`
(ai_service.py line 14): `def __init__(self, service_type, model=None)`
— there is no `debug` parameter and no `**kwargs`. -/
def aiServiceInitKeywords : List String := ["service_type", "model"]

/-- Keyword arguments supplied at the `AIService(...)` construction site
inside `query_ai_service` (commit_generator.py lines 81-85):
`AIService(service_type, model=..., debug=debug)`. -/
def queryAiServiceKwargs : List String := ["model", "debug"]

/-- Python call semantics: a call raises
`TypeError: ... got an unexpected keyword argument ...` when some
supplied keyword argument is not among the callee's parameter names. -/
def pyCallRaisesTypeError (params kwargs : List String) : Bool :=
  kwargs.any (fun k => !(params.contains k))

/-- Outcome of `query_ai_service`: the backend's reply text, or process
termination with exit status 1. -/
inductive QueryResult where
  | response (text : String)
  | exitOne
deriving DecidableEq

/-- `query_ai_service` (commit_generator.py lines 48-98): construct the
`AIService` and query it, returning the backend's reply `reply`; the
`except Exception` handler around the whole body reports the error and
calls `sys.exit(1)`.  The construction
`AIService(service_type, model=..., debug=debug)` raises `TypeError`
whenever `debug` is not an accepted parameter of `AIService.__init__`,
which the handler turns into the exit — before any HTTP request is
made. -/
def query_ai_service (reply : String) : QueryResult :=
  if pyCallRaisesTypeError aiServiceInitKeywords queryAiServiceKwargs then .exitOne
  else .response reply

/-! ## Selector: `select_message_with_fzf` (commit_generator.py lines 132-205)

The external fzf process is modelled by its result: exit code 130 (ESC)
or its stdout text.  The Python function mutates the `messages` list it
received (appending the sentinel, and relabelling in place in numeric
mode); the embedding returns both the selection result and the final
state of that list.  The `use_vim` flag only adds fzf key bindings and
has no observable effect here.  In the numeric branch,
`selected.split(". ", 1)[1]` is modelled with `getD 1 ""`; Python would
raise `IndexError` when `". "` does not occur in `selected`, which
cannot happen for an fzf output line in numeric mode since every line
handed to fzf contains `". "`. -/

/-- Result of the fzf subprocess: ESC (exit code 130) or its stdout. -/
inductive FzfResult where
  | cancelled
  | output (stdout : String)
deriving DecidableEq

/-- Result of one `select_message_with_fzf` call: the returned value
(Python `Optional[str]`) and the final state of the caller's list. -/
structure SelectCall where
  result : Option String
  messagesAfter : List String
deriving DecidableEq

/-- Numeric relabelling loop of `select_message_with_fzf`
(commit_generator.py lines 170-171): `messages[i] = f"{i+1}. {msg}"`,
with `i` counting from `start`. -/
def relabelFrom (start : Nat) : List String → List String
  | [] => []
  | m :: ms => (toString (start + 1) ++ ". " ++ m) :: relabelFrom (start + 1) ms

/-- The list handed to fzf, which is also the final state of the
caller's list: the sentinel `"Regenerate messages"` is appended
(line 153), then in numeric mode every element is overwritten with its
`"N. "` label (lines 169-171). -/
def selector_visible (messages : List String) (use_num : Bool) : List String :=
  let msgs := messages ++ ["Regenerate messages"]
  if use_num then relabelFrom 0 msgs else msgs

/-- `select_message_with_fzf` (commit_generator.py lines 132-205):
append the sentinel, relabel in numeric mode, run fzf; ESC gives `None`;
a stripped stdout equal to `"Regenerate messages"` or
`"4. Regenerate messages"` gives `"regenerate"`; otherwise the stripped
stdout, with its leading `"N. "` label removed when numeric mode is
active and the output is non-empty, is returned (possibly `""`). -/
def select_message_with_fzf (messages : List String) (use_num : Bool)
    (fzf : FzfResult) : SelectCall :=
  let msgs := selector_visible messages use_num
  match fzf with
  | .cancelled => ⟨none, msgs⟩
  | .output stdout =>
    let selected := pyStrip stdout
    if selected = "Regenerate messages" || selected = "4. Regenerate messages" then
      ⟨some "regenerate", msgs⟩
    else if use_num && !(selected = "") then
      ⟨some ((pySplitOnce selected ". ").getD 1 ""), msgs⟩
    else
      ⟨some selected, msgs⟩

/-! ## Orchestrator: `main` (cli.py lines 16-118) -/

/-- Selection outcomes as the spec names them. -/
inductive SelectionOutcome where
  | chosen (msg : String)
  | regenerate
  | cancelled
deriving DecidableEq

/-- How the CLI loop (cli.py lines 84-118) reads the value returned by
`select_message_with_fzf`: the literal `"regenerate"` restarts
generation; any other truthy (non-empty) string is committed; `None` or
`""` (both falsy) abort. -/
def interpret_selection : Option String → SelectionOutcome
  | none => .cancelled
  | some s =>
    if s = "regenerate" then .regenerate
    else if s = "" then .cancelled
    else .chosen s

/-- Terminal (or pending) states of one CLI run. -/
inductive RunState where
  | noChanges
  | generationFailed
  | committed (msg : String) (ok : Bool)
  | aborted
  | pending
deriving DecidableEq

/-- Observable trace of one CLI run: its final state and the messages
passed to `create_commit` (`git commit -m`), in order. -/
structure RunTrace where
  finalState : RunState
  commits : List String
deriving DecidableEq

/-- One iteration of the `while True` selection loop of `main`
(cli.py lines 84-118): run the selector on the current candidates and
branch on the outcome.  A `Chosen` outcome calls `create_commit` and
breaks out of the loop — `create_commit` returns whether the commit
succeeded, but `main` ignores the returned value (`commitOk`) and
terminates either way.  A `Regenerate` outcome consumes the next backend
reply, re-parses, exits with an error on an empty candidate set, and
otherwise continues the loop (`cont`) with the fresh candidate set.  A
`Cancelled` outcome breaks out with the manual-commit notice. -/
def main_loop_body (msgs : List String) (use_num commitOk : Bool) (sel : FzfResult)
    (resps : List String) (cont : List String → List String → RunTrace) : RunTrace :=
  match interpret_selection (select_message_with_fzf msgs use_num sel).result with
  | .chosen m => ⟨.committed m commitOk, [m]⟩
  | .cancelled => ⟨.aborted, []⟩
  | .regenerate =>
    match resps with
    | [] => ⟨.pending, []⟩
    | resp :: rest =>
      let newMsgs := parse_commit_messages resp
      if newMsgs = [] then ⟨.generationFailed, []⟩
      else cont newMsgs rest

/-- The `while True` selection loop of `main` (cli.py lines 84-118).
`selections` scripts the successive fzf results, `responses` the
successive backend replies consumed on regeneration. -/
def main_loop (msgs : List String) (use_num commitOk : Bool) :
    List FzfResult → List String → RunTrace
  | [], _ => ⟨.pending, []⟩
  | sel :: sels, resps =>
    main_loop_body msgs use_num commitOk sel resps
      (fun newMsgs rest => main_loop newMsgs use_num commitOk sels rest)

/-- `main` (cli.py lines 16-118): fetch the diff (exit cleanly when
empty), generate the first candidate set from the first backend reply
(exit with an error when it parses to nothing), then run the selection
loop.  Generation is modelled as parsing the scripted reply, i.e. as if
the service call inside `generate_commit_messages` succeeded; as
`query_ai_service` above shows, in the unpatched program that call
always exits with status 1 (the `AIService` construction raises
`TypeError`), so the states beyond `generationFailed` are reachable only
once that slip is fixed.  Safety properties proved over this model
therefore quantify over a strict superset of the program's traces. -/
def main_run (env : GitEnv) (use_num : Bool) (commitOk : Bool)
    (responses : List String) (selections : List FzfResult) : RunTrace :=
  let diff := get_git_diff env
  if diff = "" then ⟨.noChanges, []⟩
  else
    match responses with
    | [] => ⟨.pending, []⟩
    | resp :: rest =>
      let msgs := parse_commit_messages resp
      if msgs = [] then ⟨.generationFailed, []⟩
      else main_loop msgs use_num commitOk selections rest

/-! ## Helper lemmas -/

theorem relabelFrom_length (l : List String) : ∀ start, (relabelFrom start l).length = l.length := by
  induction l with
  | nil => intro start; rfl
  | cons m ms ih => intro start; simpa [relabelFrom] using ih (start + 1)

theorem relabelFrom_append_singleton (l : List String) (a : String) :
    ∀ start, relabelFrom start (l ++ [a]) =
      relabelFrom start l ++ [toString (start + l.length + 1) ++ ". " ++ a] := by
  induction l with
  | nil => intro start; simp [relabelFrom]
  | cons m ms ih =>
    intro start
    simp only [List.cons_append, relabelFrom, List.append_eq, List.length_cons]
    have h : start + 1 + ms.length + 1 = start + (ms.length + 1) + 1 := by omega
    rw [ih (start + 1), h]

theorem selector_visible_length (messages : List String) (use_num : Bool) :
    (selector_visible messages use_num).length = messages.length + 1 := by
  cases use_num <;> simp [selector_visible, relabelFrom_length]

theorem select_messagesAfter (messages : List String) (use_num : Bool) (fzf : FzfResult) :
    (select_message_with_fzf messages use_num fzf).messagesAfter =
      selector_visible messages use_num := by
  cases fzf with
  | cancelled => rfl
  | output stdout =>
    unfold select_message_with_fzf
    dsimp only
    split
    · rfl
    · split <;> rfl

theorem interpret_selection_chosen (o : Option String) (m : String)
    (h : interpret_selection o = .chosen m) : o = some m ∧ m ≠ "" ∧ m ≠ "regenerate" := by
  match o with
  | none => exact absurd h (by simp [interpret_selection])
  | some s =>
    by_cases h1 : s = "regenerate"
    · simp [interpret_selection, h1] at h
    · by_cases h2 : s = ""
      · simp [interpret_selection, h1, h2] at h
      · simp only [interpret_selection, if_neg h1, if_neg h2, SelectionOutcome.chosen.injEq] at h
        exact ⟨by rw [h], by rw [← h]; exact h2, by rw [← h]; exact h1⟩

theorem interpret_selection_regenerate (x : String) :
    interpret_selection (some x) = .regenerate ↔ x = "regenerate" := by
  by_cases h1 : x = "regenerate"
  · simp [interpret_selection, h1]
  · by_cases h2 : x = ""
    · simp [interpret_selection, h1, h2]
    · simp [interpret_selection, h1, h2]

theorem select_output_result (messages : List String) (use_num : Bool) (out : String) :
    (select_message_with_fzf messages use_num (.output out)).result =
      if pyStrip out = "Regenerate messages" ∨ pyStrip out = "4. Regenerate messages"
      then some "regenerate"
      else if use_num = true ∧ pyStrip out ≠ ""
      then some ((pySplitOnce (pyStrip out) ". ").getD 1 "")
      else some (pyStrip out) := by
  unfold select_message_with_fzf
  dsimp only
  by_cases h1 : pyStrip out = "Regenerate messages" ∨ pyStrip out = "4. Regenerate messages"
  · rw [if_pos (by simpa using h1), if_pos h1]
  · rw [if_neg (by simpa using h1), if_neg h1]
    by_cases h2 : use_num = true ∧ pyStrip out ≠ ""
    · rw [if_pos (by obtain ⟨hu, hne⟩ := h2; simp [hu, hne]), if_pos h2]
    · rw [if_neg ?hc, if_neg h2]
      case hc =>
        cases hu : use_num with
        | false => simp
        | true =>
          have hs : pyStrip out = "" := by
            by_contra hne
            exact h2 ⟨hu, hne⟩
          simp [hs]

/-! ## Claim theorems -/

/-- C1: the end-to-end scenario describes the program's evident intent,
but the code cannot reach it.  The construction site
`AIService(service_type, model=..., debug=debug)` in `query_ai_service`
(commit_generator.py lines 81-85) passes the keyword `debug`, which
`AIService.__init__` (ai_service.py line 14) does not accept, so every
generation attempt raises `TypeError` and the surrounding
`except Exception` handler exits with status 1 before any HTTP request:
no reply is ever obtained, and selection and commit are unreachable.
The first two conjuncts evaluate the code at the failing call site; the
remaining conjuncts show that downstream of that slip the claimed
scenario does hold of the pipeline — the reply parses to the 3
candidates with entry 2 `"Introduce debug output"`, and the modelled
run (with the service call assumed fixed) commits exactly that message
and terminates in the `committed` state. -/
theorem C1_commit_unreachable :
    pyCallRaisesTypeError aiServiceInitKeywords queryAiServiceKwargs = true ∧
    (∀ reply, query_ai_service reply = .exitOne) ∧
    parse_commit_messages
        "1. Add print statement\n2. Introduce debug output\n3. Insert print call\n" =
      ["Add print statement", "Introduce debug output", "Insert print call"] ∧
    (parse_commit_messages
        "1. Add print statement\n2. Introduce debug output\n3. Insert print call\n")[1]? =
      some "Introduce debug output" ∧
    main_run ⟨"diff --git a/x.py ...\n+print(1)\n", ""⟩ false true
        ["1. Add print statement\n2. Introduce debug output\n3. Insert print call\n"]
        [.output "Introduce debug output"] =
      ⟨.committed "Introduce debug output" true, ["Introduce debug output"]⟩ := by
  refine ⟨by decide, fun reply => ?_, by decide, by decide, by decide⟩
  unfold query_ai_service
  rw [if_pos (by decide)]

/-- C2: a line is accepted as a candidate by `parse_commit_messages`
(whose per-line acceptance is `extract_line`) if and only if, after
trimming, it begins with one of the literal prefixes `"1."`, `"2."`,
`"3."`; in particular `"10. Foo"`, `"1) Fix bug"` and an unprefixed line
are never extracted. -/
theorem C2_accept_iff_prefix :
    (∀ response, parse_commit_messages response = (pySplitNl response).filterMap extract_line) ∧
    (∀ rawLine, (extract_line rawLine).isSome = true ↔
      (pyStartsWith (pyStrip rawLine) "1." || pyStartsWith (pyStrip rawLine) "2." ||
        pyStartsWith (pyStrip rawLine) "3.") = true) ∧
    extract_line "10. Foo" = none ∧
    extract_line "1) Fix bug" = none ∧
    extract_line "Fix bug" = none := by
  refine ⟨fun _ => rfl, fun rawLine => ?_, by decide, by decide, by decide⟩
  unfold extract_line
  by_cases h : (pyStartsWith (pyStrip rawLine) "1." || pyStartsWith (pyStrip rawLine) "2." ||
      pyStartsWith (pyStrip rawLine) "3.") = true
  · simp [h]
  · simp [Bool.not_eq_true] at h
    simp [h]

/-- C10: `parse_commit_messages` can produce empty-string candidates: a
bare `"1."` line yields `""`, a `"1. ''"` line yields `""` after quote
stripping, and `"1. '"` yields `""` because the lone quote character
both starts and ends with a quote. -/
theorem C10_empty_string_candidates :
    parse_commit_messages "1." = [""] ∧
    parse_commit_messages "1. ''" = [""] ∧
    parse_commit_messages "1. '" = [""] ∧
    pyStartsWith "'" "'" = true ∧
    pyEndsWith "'" "'" = true := by
  decide

/-- C7: for the Ollama (local-generate) backend, a successful HTTP
response whose JSON object has no `response` field makes the query
return the empty string rather than fail. -/
theorem C7_ollama_missing_response_field (body : JsonObj)
    (h : body.fields.lookup "response" = none) :
    query_ollama (.success body) = .ok "" := by
  simp [query_ollama, jsonGet, h]

/-- C7 witness: a concrete successful response without a `response`
field. -/
theorem C7_ollama_missing_response_field_witness :
    query_ollama (.success ⟨[("model", "llama3.1"), ("done", "true")]⟩) = .ok "" :=
  C7_ollama_missing_response_field ⟨[("model", "llama3.1"), ("done", "true")]⟩ (by decide)

/-- C5: `get_git_diff` returns the (truncated) staged diff whenever it
is non-empty, even if an unstaged diff also exists; it returns the
unstaged diff only when the staged diff is empty; and it truncates any
diff longer than `max_chars` to exactly `max_chars` characters. -/
theorem C5_get_git_diff (env : GitEnv) (max_chars : Nat) :
    (env.staged ≠ "" → get_git_diff env max_chars = pyTake env.staged max_chars) ∧
    (env.staged = "" → get_git_diff env max_chars = pyTake env.unstaged max_chars) ∧
    (max_chars < (if env.staged = "" then env.unstaged else env.staged).length →
      (get_git_diff env max_chars).length = max_chars) := by
  obtain ⟨st, un⟩ := env
  refine ⟨fun h => ?_, fun h => ?_, fun h => ?_⟩
  · unfold get_git_diff; dsimp only; rw [if_neg h]
  · unfold get_git_diff; dsimp only; rw [if_pos h]
  · unfold get_git_diff
    dsimp only at h ⊢
    by_cases hs : st = ""
    · rw [if_pos hs] at h ⊢
      simp only [pyTake, String.length, List.length_take] at h ⊢
      omega
    · rw [if_neg hs] at h ⊢
      simp only [pyTake, String.length, List.length_take] at h ⊢
      omega

/-- C5 witness: a staged diff wins over an unstaged one, an empty staged
diff falls back to the unstaged one, and an 11-character diff is
truncated to exactly 4 characters. -/
theorem C5_get_git_diff_witness :
    get_git_diff ⟨"staged diff", "unstaged diff"⟩ 5000 = pyTake "staged diff" 5000 ∧
    get_git_diff ⟨"", "unstaged diff"⟩ 5000 = pyTake "unstaged diff" 5000 ∧
    (get_git_diff ⟨"staged diff", "unstaged diff"⟩ 4).length = 4 :=
  ⟨(C5_get_git_diff ⟨"staged diff", "unstaged diff"⟩ 5000).1 (by decide),
   (C5_get_git_diff ⟨"", "unstaged diff"⟩ 5000).2.1 rfl,
   (C5_get_git_diff ⟨"staged diff", "unstaged diff"⟩ 4).2.2 (by decide)⟩

/-- C6: accepted lines are stripped of the numeric prefix and
surrounding whitespace, and the quote-stripping step changes the message
exactly when it begins and ends with a straight single quote:
`"1. 'Fix bug'"` parses to `"Fix bug"`, while `"1. Fix 'quoted' bug"`
(quotes not bounding the full string) parses unchanged.  (For the
one-character message `"'"` the begin/end condition holds vacuously and
the quotes are stripped to `""`; that edge case is the subject of the
claim proved in a separate theorem about empty candidates.) -/
theorem C6_quote_stripping :
    (∀ message, stripQuotes message = message ↔
      (pyStartsWith message "'" && pyEndsWith message "'") = false) ∧
    parse_commit_messages "1. 'Fix bug'" = ["Fix bug"] ∧
    parse_commit_messages "1. Fix 'quoted' bug" = ["Fix 'quoted' bug"] ∧
    parse_commit_messages "  2.   'Spaced'  " = ["Spaced"] := by
  refine ⟨fun message => ?_, by decide, by decide, by decide⟩
  by_cases h : (pyStartsWith message "'" && pyEndsWith message "'") = true
  · rw [stripQuotes, if_pos h, h]
    constructor
    · intro heq
      exfalso
      have h1 : pyStartsWith message "'" = true := by
        rw [Bool.and_eq_true] at h; exact h.1
      obtain ⟨data⟩ := message
      have hd : (data.drop 1).dropLast = data := congrArg String.data heq
      cases data with
      | nil => exact absurd h1 (by decide)
      | cons c cs =>
        have hlen := congrArg List.length hd
        simp only [List.length_dropLast, List.length_drop, List.length_cons] at hlen
        omega
    · intro hfalse
      simp at hfalse
  · have hf : (pyStartsWith message "'" && pyEndsWith message "'") = false := by
      revert h; cases (pyStartsWith message "'" && pyEndsWith message "'") <;> simp
    rw [stripQuotes, if_neg (by rw [hf]; simp), hf]
    simp

/-- C4: a response whose line split contains the well-formed lines
`"1. A"`, `"2. B"`, `"3. C"` in that order, with arbitrary interleaved
noise lines (lines `extract_line` rejects), parses to exactly
`["A", "B", "C"]`. -/
theorem C4_parse_wellformed_with_noise (r : String) (n0 n1 n2 n3 : List String)
    (hsplit : pySplitNl r = n0 ++ "1. A" :: (n1 ++ "2. B" :: (n2 ++ "3. C" :: n3)))
    (hnoise : ∀ l ∈ n0 ++ (n1 ++ (n2 ++ n3)), extract_line l = none) :
    parse_commit_messages r = ["A", "B", "C"] := by
  have h0 : n0.filterMap extract_line = [] :=
    List.filterMap_eq_nil_iff.mpr fun l hl => hnoise l (by simp [hl])
  have h1 : n1.filterMap extract_line = [] :=
    List.filterMap_eq_nil_iff.mpr fun l hl => hnoise l (by simp [hl])
  have h2 : n2.filterMap extract_line = [] :=
    List.filterMap_eq_nil_iff.mpr fun l hl => hnoise l (by simp [hl])
  have h3 : n3.filterMap extract_line = [] :=
    List.filterMap_eq_nil_iff.mpr fun l hl => hnoise l (by simp [hl])
  have e1 : extract_line "1. A" = some "A" := by decide
  have e2 : extract_line "2. B" = some "B" := by decide
  have e3 : extract_line "3. C" = some "C" := by decide
  unfold parse_commit_messages parse_lines
  rw [hsplit]
  simp [List.filterMap_append, List.filterMap_cons, h0, h1, h2, h3, e1, e2, e3]

/-- C4 witness: a concrete reply with commentary, an unnumbered noise
line and a blank line interleaved between the three well-formed
candidates. -/
theorem C4_parse_wellformed_with_noise_witness :
    parse_commit_messages "Sure, here are suggestions:\n1. A\nsome noise\n2. B\n\n3. C" =
      ["A", "B", "C"] :=
  C4_parse_wellformed_with_noise "Sure, here are suggestions:\n1. A\nsome noise\n2. B\n\n3. C"
    ["Sure, here are suggestions:"] ["some noise"] [""] [] (by decide) (by decide)

/-- C3 counterexample: with the two-candidate list `["A", "B"]` in
numeric mode, the synthetic entry is labelled `"3. Regenerate messages"`
and occupies the final visible slot; its label-stripped form equals the
synthetic regenerate label, yet selecting it does not yield the
Regenerate outcome — `select_message_with_fzf` returns the string
`"Regenerate messages"`, which the CLI loop treats as a Chosen message
(and commits). -/
theorem C3_counterexample :
    selector_visible ["A", "B"] true = ["1. A", "2. B", "3. Regenerate messages"] ∧
    (pySplitOnce (pyStrip "3. Regenerate messages") ". ").getD 1 "" = "Regenerate messages" ∧
    (select_message_with_fzf ["A", "B"] true (.output "3. Regenerate messages")).result =
      some "Regenerate messages" ∧
    interpret_selection
        (select_message_with_fzf ["A", "B"] true (.output "3. Regenerate messages")).result =
      .chosen "Regenerate messages" := by
  decide

/-- C3 (amended): for every candidate list and in both modes the
synthetic `"Regenerate messages"` entry occupies the final visible slot
(labelled `"N+1. "` in numeric mode).  The chooser's ESC exit yields the
Cancelled outcome, and an output that strips to the empty string is
returned as the empty selection, which the CLI loop treats as
Cancelled.  The Regenerate outcome arises exactly when either the raw
stripped output equals one of the hardcoded literals
`"Regenerate messages"` / `"4. Regenerate messages"`, or the value that
survives the chosen path is literally `"regenerate"` — in numeric mode a
non-empty output whose leading-label-stripped form is `"regenerate"`,
otherwise the raw output `"regenerate"` itself.  In particular no
label-stripped comparison against the sentinel is performed, so in
numeric mode with a candidate count other than 3 selecting the synthetic
entry yields Chosen("Regenerate messages") rather than Regenerate.  Any
other non-sentinel, non-empty output is returned as the chosen line:
leading `"N. "` label stripped in numeric mode (modelled with the
`getD 1 ""` fallback where Python would raise `IndexError` on an output
without `". "`, which no numeric-mode fzf line produces), verbatim
otherwise. -/
theorem C3_selector_amended (messages : List String) (use_num : Bool) (out : String) :
    (selector_visible messages use_num).getLast? =
      some (if use_num then toString (messages.length + 1) ++ ". " ++ "Regenerate messages"
            else "Regenerate messages") ∧
    (select_message_with_fzf messages use_num .cancelled).result = none ∧
    interpret_selection (select_message_with_fzf messages use_num .cancelled).result =
      .cancelled ∧
    (interpret_selection (select_message_with_fzf messages use_num (.output out)).result =
        .regenerate ↔
      ((pyStrip out = "Regenerate messages" ∨ pyStrip out = "4. Regenerate messages") ∨
       (use_num = true ∧ pyStrip out ≠ "" ∧
         (pySplitOnce (pyStrip out) ". ").getD 1 "" = "regenerate") ∨
       (use_num = false ∧ pyStrip out = "regenerate"))) ∧
    (pyStrip out = "" →
      (select_message_with_fzf messages use_num (.output out)).result = some "" ∧
      interpret_selection (select_message_with_fzf messages use_num (.output out)).result =
        .cancelled) ∧
    (pyStrip out ≠ "Regenerate messages" → pyStrip out ≠ "4. Regenerate messages" →
      pyStrip out ≠ "" →
      (select_message_with_fzf messages use_num (.output out)).result =
        some (if use_num then (pySplitOnce (pyStrip out) ". ").getD 1 ""
              else pyStrip out)) := by
  refine ⟨?_, rfl, rfl, ?_, fun h => ?_, fun h1 h2 h3 => ?_⟩
  · cases use_num with
    | false => simp [selector_visible, List.getLast?_concat]
    | true =>
      simp only [selector_visible, if_pos rfl, relabelFrom_append_singleton,
        List.getLast?_concat, Nat.zero_add, if_true]
  · rw [select_output_result]
    by_cases hl : pyStrip out = "Regenerate messages" ∨ pyStrip out = "4. Regenerate messages"
    · rw [if_pos hl]
      constructor
      · intro _
        exact Or.inl hl
      · intro _
        simp [interpret_selection]
    · rw [if_neg hl]
      by_cases hn : use_num = true ∧ pyStrip out ≠ ""
      · rw [if_pos hn, interpret_selection_regenerate]
        constructor
        · intro hres
          exact Or.inr (Or.inl ⟨hn.1, hn.2, hres⟩)
        · rintro (hcontra | ⟨_, _, hres⟩ | ⟨hfalse, _⟩)
          · exact absurd hcontra hl
          · exact hres
          · rw [hn.1] at hfalse
            simp at hfalse
      · rw [if_neg hn, interpret_selection_regenerate]
        constructor
        · intro hres
          refine Or.inr (Or.inr ⟨?_, hres⟩)
          cases hu : use_num with
          | false => rfl
          | true =>
            exact absurd ⟨hu, by rw [hres]; decide⟩ hn
        · rintro (hcontra | ⟨hu, hne, _⟩ | ⟨_, hres⟩)
          · exact absurd hcontra hl
          · exact absurd ⟨hu, hne⟩ hn
          · exact hres
  · constructor
    · rw [select_output_result, if_neg (by simp [h]), if_neg (by simp [h]), h]
    · rw [select_output_result, if_neg (by simp [h]), if_neg (by simp [h]), h]
      simp [interpret_selection]
  · rw [select_output_result, if_neg (by simp [h1, h2])]
    cases hu : use_num with
    | true =>
      rw [if_pos ⟨rfl, h3⟩]
      simp
    | false =>
      rw [if_neg (by simp)]
      simp

/-- C3 witness: an empty output is returned as the empty selection and
read as Cancelled; a numeric-mode line is returned label-stripped and a
plain line verbatim; the chooser output `"regenerate"` in plain mode
produces the Regenerate outcome without matching either sentinel
literal. -/
theorem C3_selector_amended_witness :
    (select_message_with_fzf ["X", "Y", "Z"] true (.output "")).result = some "" ∧
    interpret_selection (select_message_with_fzf ["X", "Y", "Z"] true (.output "")).result =
      .cancelled ∧
    (select_message_with_fzf ["A", "B", "C"] true (.output "2. B")).result = some "B" ∧
    (select_message_with_fzf ["A", "B", "C"] false (.output "B")).result = some "B" ∧
    interpret_selection
        (select_message_with_fzf ["X", "Y"] false (.output "regenerate")).result =
      .regenerate := by
  refine ⟨((C3_selector_amended ["X", "Y", "Z"] true "").2.2.2.2.1 (by decide)).1,
    ((C3_selector_amended ["X", "Y", "Z"] true "").2.2.2.2.1 (by decide)).2, ?_, ?_, ?_⟩
  · have h := (C3_selector_amended ["A", "B", "C"] true "2. B").2.2.2.2.2
      (by decide) (by decide) (by decide)
    rw [h]
    decide
  · have h := (C3_selector_amended ["A", "B", "C"] false "B").2.2.2.2.2
      (by decide) (by decide) (by decide)
    rw [h]
    decide
  · exact (C3_selector_amended ["X", "Y"] false "regenerate").2.2.2.1.mpr
      (Or.inr (Or.inr (by decide)))

/-- C9: `select_message_with_fzf` mutates the candidate list object the
caller passed in: afterwards the list carries the appended
`"Regenerate messages"` sentinel, and in numeric mode every element has
additionally been overwritten in place with its `"N. "` label; in
particular the caller's list is never unchanged (it is one element
longer). -/
theorem C9_selector_mutates (messages : List String) (use_num : Bool) (fzf : FzfResult) :
    (select_message_with_fzf messages use_num fzf).messagesAfter =
      selector_visible messages use_num ∧
    (select_message_with_fzf messages use_num fzf).messagesAfter.length =
      messages.length + 1 ∧
    (select_message_with_fzf messages use_num fzf).messagesAfter ≠ messages ∧
    (use_num = true → (select_message_with_fzf messages use_num fzf).messagesAfter =
      relabelFrom 0 (messages ++ ["Regenerate messages"])) ∧
    (use_num = false → (select_message_with_fzf messages use_num fzf).messagesAfter =
      messages ++ ["Regenerate messages"]) := by
  have hA := select_messagesAfter messages use_num fzf
  refine ⟨hA, by rw [hA]; exact selector_visible_length messages use_num, ?_,
    fun h => ?_, fun h => ?_⟩
  · rw [hA]
    intro hEq
    have hlen := congrArg List.length hEq
    rw [selector_visible_length] at hlen
    omega
  · rw [hA, h]; rfl
  · rw [hA, h]; rfl

/-- C9 witness: concrete mutated lists in numeric and plain mode. -/
theorem C9_selector_mutates_witness :
    (select_message_with_fzf ["Fix parser", "Refactor"] true .cancelled).messagesAfter =
      relabelFrom 0 (["Fix parser", "Refactor"] ++ ["Regenerate messages"]) ∧
    (select_message_with_fzf ["Fix parser"] false .cancelled).messagesAfter =
      ["Fix parser"] ++ ["Regenerate messages"] :=
  ⟨(C9_selector_mutates ["Fix parser", "Refactor"] true .cancelled).2.2.2.1 rfl,
   (C9_selector_mutates ["Fix parser"] false .cancelled).2.2.2.2 rfl⟩

theorem main_loop_commits (use_num : Bool) (commitOk : Bool) :
    ∀ (sels : List FzfResult) (msgs resps : List String),
      (main_loop msgs use_num commitOk sels resps).commits.length ≤ 1 ∧
      ∀ m ∈ (main_loop msgs use_num commitOk sels resps).commits,
        (main_loop msgs use_num commitOk sels resps).finalState = .committed m commitOk ∧
        m ≠ "" ∧ m ≠ "regenerate" := by
  intro sels
  induction sels with
  | nil =>
    intro msgs resps
    simp only [main_loop]
    exact ⟨by simp, by simp⟩
  | cons sel sels ih =>
    intro msgs resps
    simp only [main_loop]
    cases hI : interpret_selection (select_message_with_fzf msgs use_num sel).result with
    | chosen m =>
      have hm := interpret_selection_chosen _ _ hI
      simp only [main_loop_body, hI]
      refine ⟨by simp, ?_⟩
      rintro m' hm'
      simp only [List.mem_singleton] at hm'
      subst hm'
      exact ⟨rfl, hm.2.1, hm.2.2⟩
    | regenerate =>
      simp only [main_loop_body, hI]
      cases resps with
      | nil => exact ⟨by simp, by simp⟩
      | cons resp rest =>
        dsimp only
        by_cases hp : parse_commit_messages resp = []
        · rw [if_pos hp]; exact ⟨by simp, by simp⟩
        · rw [if_neg hp]; exact ih (parse_commit_messages resp) rest
    | cancelled =>
      simp only [main_loop_body, hI]
      exact ⟨by simp, by simp⟩

/-- C8: in every run of the orchestrator, `create_commit` is invoked at
most once; every committed message came from a Chosen outcome (so it is
neither the empty string nor the `"regenerate"` token the loop consumes
itself), and when it happens the run ends in the `committed` terminal
state regardless of whether the commit succeeded (`commitOk` is recorded
but never branches the control flow). -/
theorem C8_commit_at_most_once (env : GitEnv) (use_num commitOk : Bool)
    (responses : List String) (selections : List FzfResult) :
    (main_run env use_num commitOk responses selections).commits.length ≤ 1 ∧
    ∀ m ∈ (main_run env use_num commitOk responses selections).commits,
      (main_run env use_num commitOk responses selections).finalState =
        .committed m commitOk ∧ m ≠ "" ∧ m ≠ "regenerate" := by
  unfold main_run
  dsimp only
  by_cases hd : get_git_diff env = ""
  · rw [if_pos hd]; exact ⟨by simp, by simp⟩
  · rw [if_neg hd]
    cases responses with
    | nil => exact ⟨by simp, by simp⟩
    | cons resp rest =>
      dsimp only
      by_cases hp : parse_commit_messages resp = []
      · rw [if_pos hp]; exact ⟨by simp, by simp⟩
      · rw [if_neg hp]
        exact main_loop_commits use_num commitOk selections (parse_commit_messages resp) rest

/-- C8 witness: a concrete run that commits exactly once, with the
chosen message recorded in the terminal state. -/
theorem C8_commit_at_most_once_witness :
    (main_run ⟨"some staged diff", ""⟩ false false
        ["1. Tidy code\n2. Fix tests\n3. Update docs"] [.output "Fix tests"]).commits.length ≤ 1 ∧
    ((main_run ⟨"some staged diff", ""⟩ false false
        ["1. Tidy code\n2. Fix tests\n3. Update docs"] [.output "Fix tests"]).finalState =
      .committed "Fix tests" false ∧ "Fix tests" ≠ "" ∧ "Fix tests" ≠ "regenerate") :=
  ⟨(C8_commit_at_most_once ⟨"some staged diff", ""⟩ false false
      ["1. Tidy code\n2. Fix tests\n3. Update docs"] [.output "Fix tests"]).1,
   (C8_commit_at_most_once ⟨"some staged diff", ""⟩ false false
      ["1. Tidy code\n2. Fix tests\n3. Update docs"] [.output "Fix tests"]).2
     "Fix tests" (by decide)⟩

end Llmcommit
